import Mathlib

/-!
Verification model of the Lead_Gen_FIN LinkedIn lead-generation pipeline.

The definitions below are shallow embeddings of the Python sources:

* `src/scrapers/linkedin_scraper.py` — the monolithic scraper
  (`_extract_additional_info`, `extract_profiles_js`, `extract_profiles`,
  `scrape_profiles` URL canonicalisation / dedup / sort,
  `scrape_for_coaching_leads` campaign loop);
* `src/scrapers/linkedin/extractors.py` and
  `src/scrapers/linkedin/linkedin_extractors.py` — the package extractors
  (`extract_profiles_js`, `extract_profiles_selenium`, `extract_profiles`,
  `extract_additional_info`);
* `src/scrapers/linkedin/selectors.py` — keyword and selector tables;
* `src/scrapers/linkedin/scraper.py` — the package scraper campaign
  (`scrape_for_coaching_leads` with per-task exception isolation).

Python strings are modelled as Lean `String` with character-list helpers so
that every definition evaluates by `decide`/`rfl`; Python `in` on strings is
the substring test `containsSub`; Python dicts with optional keys are
structures with `Option` fields; Python machine integers are `Int`
(no overflow is reachable: scores stay within `[50, 100]`).
-/

/-- Character-list test that `n` is a leading block of `h`
(helper for the substring test). -/
def startsWithChars : List Char → List Char → Bool
  | [], _ => true
  | _ :: _, [] => false
  | a :: as, b :: bs => a == b && startsWithChars as bs

/-- Character-list substring test: Python's `needle in hay`. -/
def substrChars (n : List Char) : List Char → Bool
  | [] => n.isEmpty
  | c :: t => startsWithChars n (c :: t) || substrChars n t

/-- Python's `needle in hay` on strings (substring containment). -/
def containsSub (needle hay : String) : Bool := substrChars needle.data hay.data

/-- Python's `str.lower()` for the ASCII inputs this program handles. -/
def lowerAscii (s : String) : String := String.mk (s.data.map Char.toLower)

/-- Python's `str.upper()` for the ASCII inputs this program handles. -/
def upperAscii (s : String) : String := String.mk (s.data.map Char.toUpper)

/-- Whitespace test used by `trimStr`. -/
def isSpaceChar (c : Char) : Bool := c == ' ' || c == '\t' || c == '\n' || c == '\r'

/-- JavaScript's `String.prototype.trim()` / Python's `str.strip()`. -/
def trimStr (s : String) : String :=
  String.mk (((s.data.dropWhile isSpaceChar).reverse.dropWhile isSpaceChar).reverse)

/-- Python's `sep.join(parts)`. -/
def joinSep (sep : String) : List String → String
  | [] => ""
  | [x] => x
  | x :: y :: xs => x ++ sep ++ joinSep sep (y :: xs)

/-- Coaching interest keywords, from `selectors.py` `COACHING_KEYWORDS`
(the same literal list appears inline in `linkedin_scraper.py`
`_extract_additional_info`). -/
def COACHING_KEYWORDS : List String :=
  ["development", "growth", "transition", "leadership",
   "change", "transform", "burnout", "balance", "career"]

/-- Title/role scoring weights, from `selectors.py` `ROLE_KEYWORD_SCORES`
(iteration order is Python dict insertion order; the same literal dict
appears inline in `linkedin_scraper.py` `_extract_additional_info`). -/
def ROLE_KEYWORD_SCORES : List (String × Int) :=
  [("ceo", 20), ("chief executive", 20), ("founder", 15), ("president", 15),
   ("director", 10), ("manager", 8), ("head", 8), ("vp", 10), ("vice president", 10),
   ("leader", 5), ("executive", 10), ("officer", 5), ("professional", 3),
   ("hr", 5), ("human resources", 5)]

/-- Target locations for scoring, from `selectors.py` `TARGET_LOCATIONS`. -/
def TARGET_LOCATIONS : List String :=
  ["london", "uk", "united kingdom", "england",
   "manchester", "birmingham", "leeds", "bristol"]

/-- Target industries for the campaign search plan, from `selectors.py` /
`linkedin_scraper.py` `TARGET_INDUSTRIES`. -/
def TARGET_INDUSTRIES : List String :=
  ["Technology", "Finance", "Healthcare", "Education", "Consulting",
   "Media", "Marketing", "Entrepreneurship", "Human Resources"]

/-- Target roles for the campaign search plan, from `selectors.py` /
`linkedin_scraper.py` `TARGET_ROLES`. -/
def TARGET_ROLES : List String :=
  ["CEO", "CTO", "CFO", "Director", "Manager", "Executive", "VP",
   "President", "Founder", "Owner", "Leader", "Head", "Professional"]

/-- Target keywords for the campaign keyword phase, from `selectors.py` /
`linkedin_scraper.py` `TARGET_KEYWORDS`. -/
def TARGET_KEYWORDS : List String :=
  ["career transition", "professional development", "leadership development",
   "work life balance", "burnout", "career growth", "personal development",
   "executive coaching", "leadership coaching", "professional coaching",
   "business coaching", "transformation"]

/-- Profile record handed to the enrichment step: the Python dict built in
`scrape_profiles`, whose keys may in principle be absent (the scoring code
guards each with `"key" in profile_data`), so each field is an `Option`.
`coaching_fit_score` and `coaching_notes` are the keys the enrichment step
writes. -/
structure ProfileData where
  name : Option String
  headline : Option String
  location : Option String
  coaching_fit_score : Option Int
  coaching_notes : Option String
deriving DecidableEq

/-- Score computation of `extract_additional_info`
(`linkedin_extractors.py` lines 161-186, identical to the inline logic of
`linkedin_scraper.py` `_extract_additional_info` lines 264-303):
base 50; +5 per coaching keyword occurring in the lowercased headline;
+points per role keyword occurring in it; +10 once if any target location
occurs in the lowercased location; finally capped at 100 via `min`. -/
def coachingScore (pd : ProfileData) : Int :=
  let score : Int := 50
  let score : Int :=
    match pd.headline with
    | none => score
    | some h =>
      let hl := lowerAscii h
      let score := COACHING_KEYWORDS.foldl
        (fun s kw => if containsSub kw hl then s + 5 else s) score
      ROLE_KEYWORD_SCORES.foldl
        (fun s kp => if containsSub kp.1 hl then s + kp.2 else s) score
  let score : Int :=
    match pd.location with
    | none => score
    | some loc =>
      if TARGET_LOCATIONS.any (fun t => containsSub t (lowerAscii loc))
      then score + 10 else score
  min score 100

/-- Notes generation of `extract_additional_info`
(`linkedin_extractors.py` lines 191-219): a role note (first matching role
keyword, else the raw headline) when both name and headline are present, a
location note, and a qualitative label at score ≥ 80 / ≥ 60. -/
def coachingNotes (pd : ProfileData) (score : Int) : List String :=
  let roleNotes : List String :=
    match pd.headline, pd.name with
    | some h, some nm =>
      (match ROLE_KEYWORD_SCORES.find? (fun kp => containsSub kp.1 (lowerAscii h)) with
       | some kp => [nm ++ " is a " ++ upperAscii kp.1 ++ " - key decision maker"]
       | none => ["Role: " ++ h])
    | _, _ => []
  let locNotes : List String :=
    match pd.location with
    | some loc =>
      (match TARGET_LOCATIONS.find? (fun t => containsSub t (lowerAscii loc)) with
       | some _ =>
         ["Located in " ++ loc ++ " - within Peak Transformation\x27s target area"]
       | none => ["Location: " ++ loc])
    | none => []
  let labelNotes : List String :=
    if score ≥ 80 then
      ["HIGH POTENTIAL: Executive/leadership role ideal for Peak Transformation coaching"]
    else if score ≥ 60 then
      ["GOOD MATCH: Professional background aligns with Peak Transformation services"]
    else []
  roleNotes ++ locNotes ++ labelNotes

/-- The record as `extract_additional_info` leaves it: the input dict with
`coaching_fit_score` and `coaching_notes` written into it
(`profile_data["coaching_fit_score"] = score`,
`profile_data["coaching_notes"] = " | ".join(notes)`). -/
def extract_additional_info (pd : ProfileData) : ProfileData :=
  let score := coachingScore pd
  { pd with
      coaching_fit_score := some score,
      coaching_notes := some (joinSep " | " (coachingNotes pd score)) }

/-- Call-level model of `extract_additional_info` with the argument passed
as explicit state: the Python function mutates its argument dict in place
(two key writes) and then executes `return profile_data`, so the call
returns a pair (return value, final state of the caller's record) — both
are the updated record. -/
def extract_additional_info_call (pd : ProfileData) : ProfileData × ProfileData :=
  (extract_additional_info pd, extract_additional_info pd)

/-- DOM element as the extraction code observes it: its `href` attribute and
its visible text (`innerText` / Selenium `.text`). -/
structure Elem where
  href : String
  innerText : String
deriving DecidableEq

/-- Profile container element: the list of elements each CSS selector string
resolves to inside it (`querySelectorAll` / `find_element`). -/
structure Container where
  sel : List (String × List Elem)
deriving DecidableEq

/-- Loaded search-results page: the containers matched by the primary
selector `.reusable-search__result-container`, the containers matched by
the secondary selector `li.ember-view`, and all anchor elements of the
page (from which `a[href*="/in/"]` filters those whose target matches the
profile-URL pattern). -/
structure Page where
  resultContainers : List Container
  emberItems : List Container
  anchors : List Elem
deriving DecidableEq

/-- `container.querySelectorAll(s)` / `find_elements`: all elements the
selector resolves to in this container. -/
def qsa (c : Container) (s : String) : List Elem :=
  ((c.sel.find? (fun e => e.1 == s)).map Prod.snd).getD []

/-- `container.querySelector(s)` / `find_element`: the first such element. -/
def qsel (c : Container) (s : String) : Option Elem := (qsa c s).head?

/-- Anchors matched by the document-level selector `a[href*="/in/"]`. -/
def profileAnchors (p : Page) : List Elem :=
  p.anchors.filter (fun a => containsSub "/in/" a.href)

/-- Extracted raw profile record (the JS object / Python dict pushed by the
extraction methods: always carries all four keys). -/
structure RawProfile where
  url : String
  name : String
  headline : String
  location : String
deriving DecidableEq

/-- Text of an optional element, trimmed, with a default when the element is
absent (`el ? el.innerText.trim() : dflt` / the Selenium
`except NoSuchElementException` default). -/
def optTextTrim (e : Option Elem) (dflt : String) : String :=
  match e with
  | some el => trimStr el.innerText
  | none => dflt

namespace Mono

/-- Link selector list of `linkedin_scraper.py` `extract_profiles_js`. -/
def LINK_SELECTORS : List String :=
  [".app-aware-link[href*=\"/in/\"]", "a[href*=\"/in/\"]",
   ".entity-result__title-text a", "a[data-control-name=\"search_srp_result\"]"]

/-- Name selector list of `linkedin_scraper.py` `extract_profiles_js`. -/
def NAME_SELECTORS : List String :=
  [".entity-result__title-text span[aria-hidden=\"true\"]",
   ".entity-result__title-line a span span", ".actor-name", "span.name",
   "span[dir=\"ltr\"]", ".artdeco-entity-lockup__title span"]

/-- Headline selector list of `linkedin_scraper.py` `extract_profiles_js`. -/
def HEADLINE_SELECTORS : List String :=
  [".entity-result__primary-subtitle", ".search-result__info .subline-level-1",
   ".entity-result__summary span", ".artdeco-entity-lockup__subtitle",
   "p.subline-level-1", ".member-insights__title"]

/-- Location selector list of `linkedin_scraper.py` `extract_profiles_js`. -/
def LOCATION_SELECTORS : List String :=
  [".entity-result__secondary-subtitle", ".search-result__info .subline-level-2",
   ".artdeco-entity-lockup__caption", "p.subline-level-2",
   ".member-insights__location"]

/-- The link-selector loop of `extract_profiles_js`: first selector with a
nonempty hit list contributes `links[0].href` and the loop breaks. -/
def firstLinkHref (c : Container) : List String → Option String
  | [] => none
  | s :: rest =>
    match qsa c s with
    | [] => firstLinkHref c rest
    | e :: _ => some e.href

/-- The field-selector loops of `extract_profiles_js`: first selector whose
first hit has truthy (nonempty) `innerText` contributes that text trimmed;
an element with empty text does not break the loop. -/
def firstTruthyText (c : Container) : List String → Option String
  | [] => none
  | s :: rest =>
    match qsa c s with
    | [] => firstTruthyText c rest
    | e :: _ =>
      if e.innerText == "" then firstTruthyText c rest
      else some (trimStr e.innerText)

/-- Per-container body of `extract_profiles_js` (lines 369-452): skip the
container when no link selector hits or the found href is falsy (empty);
otherwise build the record with per-field selector resolution and the
literal defaults. -/
def containerProfile (c : Container) : Option RawProfile :=
  match firstLinkHref c LINK_SELECTORS with
  | none => none
  | some link =>
    if link == "" then none
    else some
      { url := link,
        name := (firstTruthyText c NAME_SELECTORS).getD "Unknown",
        headline := (firstTruthyText c HEADLINE_SELECTORS).getD "No headline",
        location := (firstTruthyText c LOCATION_SELECTORS).getD "Unknown location" }

/-- Fallback link scan of `extract_profiles_js` (lines 455-470): over the
anchors matching `a[href*="/in/"]`, re-check the href, default an empty
trimmed text to "Unknown" (JS `link.innerText.trim() || "Unknown"`), and
keep the anchor only when the resulting name has length greater than 1,
with sentinel headline/location. -/
def fallbackLinkScan : List Elem → List RawProfile
  | [] => []
  | a :: rest =>
    if containsSub "/in/" a.href then
      let nm := if trimStr a.innerText == "" then "Unknown" else trimStr a.innerText
      if nm.length > 1 then
        { url := a.href, name := nm,
          headline := "Not available", location := "Not available" } :: fallbackLinkScan rest
      else fallbackLinkScan rest
    else fallbackLinkScan rest

/-- `linkedin_scraper.py` `extract_profiles_js` (lines 343-488): tier 1 uses
the primary containers, tier 2 the `li.ember-view` containers, and when the
container pass yields no profiles, tier 3 scans the page's profile links.
The Python wrapper returns the same list (or `[]` when it is falsy). -/
def extract_profiles_js (p : Page) : List RawProfile :=
  let containers :=
    if p.resultContainers ≠ [] then p.resultContainers else p.emberItems
  let profiles := containers.filterMap containerProfile
  if profiles = [] then fallbackLinkScan (profileAnchors p) else profiles

end Mono

namespace Pkg

/-- `extractors.py` / `linkedin_extractors.py` `extract_profiles_js`
(lines 21-61): one fixed selector per field over the primary containers;
a container without the `.app-aware-link[href*="/in/"]` link is skipped;
the href is trimmed; absent field elements give the literal defaults. -/
def extract_profiles_js (p : Page) : List RawProfile :=
  p.resultContainers.filterMap (fun c =>
    match qsel c ".app-aware-link[href*=\"/in/\"]" with
    | none => none
    | some link => some
      { url := trimStr link.href,
        name := optTextTrim (qsel c ".entity-result__title-text span[aria-hidden=\"true\"]") "Unknown",
        headline := optTextTrim (qsel c ".entity-result__primary-subtitle") "No headline",
        location := optTextTrim (qsel c ".entity-result__secondary-subtitle") "Unknown location" })

/-- `extractors.py` / `linkedin_extractors.py` `extract_profiles_selenium`
(lines 63-123; the same code appears as the simple Selenium variant of
`linkedin_scraper.py`, lines 763-818): per-field `find_element` with
`NoSuchElementException` defaults; a container without the profile link is
skipped; the href is not trimmed. -/
def extract_profiles_selenium (p : Page) : List RawProfile :=
  p.resultContainers.filterMap (fun c =>
    match qsel c ".app-aware-link[href*=\"/in/\"]" with
    | none => none
    | some link => some
      { url := link.href,
        name := optTextTrim (qsel c ".entity-result__title-text span[aria-hidden=\"true\"]") "Unknown",
        headline := optTextTrim (qsel c ".entity-result__primary-subtitle") "No headline",
        location := optTextTrim (qsel c ".entity-result__secondary-subtitle") "Unknown location" })

/-- `extractors.py` `extract_profiles` (lines 125-149): tries the JS method,
falls back to the Selenium method when it yields nothing — and then ends
with a bare `return` (line 149), so the computed list is discarded and the
function returns Python `None` on every input, contrary to its own
docstring "Returns: List of profile dictionaries". (The near-identical
`linkedin_extractors.py` `extract_profiles` ends with `return profiles`.) -/
def extract_profiles (p : Page) : Option (List RawProfile) :=
  let _profiles :=
    if extract_profiles_js p = [] then extract_profiles_selenium p
    else extract_profiles_js p
  none

end Pkg

/-- `linkedin_scraper.py` combined `extract_profiles` (lines 821-840): the
JS method first, the Selenium method when it yields nothing, and the
resulting list is returned (an empty list when both yield nothing). -/
def Mono.extract_profiles (p : Page) : List RawProfile :=
  let profiles := Mono.extract_profiles_js p
  if profiles = [] then Pkg.extract_profiles_selenium p else profiles

/-- Scored lead dict built in `scrape_profiles` (`linkedin_scraper.py` lines
889-901, `linkedin/scraper.py` lines 277-287) after enrichment: every key is
present by construction. The bookkeeping `index` column is renumbered 1..N
by the CSV writer on every write and is not modelled. -/
structure Lead where
  name : String
  profile_url : String
  headline : String
  location : String
  coaching_fit_score : Int
  coaching_notes : String
deriving DecidableEq

/-- URL canonicalisation `profile.get('url', '').split("?")[0]`: the part of
the URL before the first question mark. -/
def stripQuery (url : String) : String :=
  String.mk (url.data.takeWhile (fun c => c != '?'))

/-- Conversion of one extracted record into the standard lead dict plus
enrichment (`scrape_profiles` per-profile body): the profile URL is
canonicalised with `stripQuery`, then `extract_additional_info` adds
`coaching_fit_score` and `coaching_notes`. -/
def toLead (r : RawProfile) : Lead :=
  let pd : ProfileData :=
    { name := some r.name, headline := some r.headline, location := some r.location,
      coaching_fit_score := none, coaching_notes := none }
  let scored := extract_additional_info pd
  { name := r.name,
    profile_url := stripQuery r.url,
    headline := r.headline,
    location := r.location,
    coaching_fit_score := scored.coaching_fit_score.getD 0,
    coaching_notes := scored.coaching_notes.getD "" }

/-- All extracted records of a scrape converted to leads, in processing
order. -/
def processProfiles (rs : List RawProfile) : List Lead := rs.map toLead

/-- Deduplication loop of `linkedin_scraper.py` `scrape_profiles` (lines
949-956): walk the leads in order keeping a `seen_urls` set; a lead whose
`profile_url` was already seen is discarded, otherwise it is appended and
its URL recorded (first-seen wins). -/
def dedupProfilesAux : List Lead → List String → List Lead
  | [], _ => []
  | p :: rest, seen =>
    if p.profile_url ∈ seen then dedupProfilesAux rest seen
    else p :: dedupProfilesAux rest (p.profile_url :: seen)

/-- Deduplication starting from an empty `seen_urls` set. -/
def dedupProfiles (ps : List Lead) : List Lead := dedupProfilesAux ps []

/-- The unique-profiles list `scrape_profiles` builds from the records
extracted across its pages: canonicalise and score each, then deduplicate
first-seen by canonical URL. -/
def scrape_profiles_unique (rs : List RawProfile) : List Lead :=
  dedupProfiles (processProfiles rs)

/-- `unique_profiles.sort(key=lambda x: x.get('coaching_fit_score', 0),
reverse=True)`: stable descending sort by fit score (Python's stable sort
with reversed comparisons is stable merge sort with the flipped order). -/
def sortByFitDesc (ps : List Lead) : List Lead :=
  ps.mergeSort (fun a b => b.coaching_fit_score ≤ a.coaching_fit_score)

/-- A campaign search task: one `{industry, role}` query of the cross-product
phase or one keyword query of the keyword phase. -/
inductive SearchTask where
  | industryRole (industry role : String)
  | keyword (kw : String)
deriving DecidableEq

/-- Discriminator for keyword-phase tasks. -/
def isKeywordTask : SearchTask → Bool
  | SearchTask.keyword _ => true
  | SearchTask.industryRole _ _ => false

/-- State of `linkedin_scraper.py` `scrape_for_coaching_leads`: the
accumulated unique leads, the `seen_urls` set, and a trace recording
each issued SearchTask with the number of unique leads accumulated at the
moment it was issued. -/
structure CampaignState where
  trace : List (SearchTask × Nat)
  all_leads : List Lead
  seen_urls : List String
deriving DecidableEq

/-- The result loop `for result in results: if "profile_url" in result and
result["profile_url"] not in seen_urls: seen_urls.add(...);
all_leads.append(result)` (every modelled lead carries its
`profile_url` key). -/
def addUniqueResults (st : CampaignState) (rs : List Lead) : CampaignState :=
  rs.foldl
    (fun st r =>
      if r.profile_url ∈ st.seen_urls then st
      else { st with all_leads := st.all_leads ++ [r],
                     seen_urls := r.profile_url :: st.seen_urls })
    st

/-- Issue one SearchTask: query the environment (the per-task
`scrape_by_industry_and_role` / `scrape_profiles` call, abstracted as the
list of scored leads that search returns), merge its results uniquely, and
record the task in the trace with the unique-lead count at issuance. -/
def runSearchTask (env : SearchTask → List Lead) (st : CampaignState)
    (t : SearchTask) : CampaignState :=
  let st1 := addUniqueResults st (env t)
  { st1 with trace := st.trace ++ [(t, st.all_leads.length)] }

/-- Inner role loop of `scrape_for_coaching_leads` (lines 1045-1063): break
when `len(all_leads) >= target_count`, otherwise issue the industry×role
SearchTask and continue. -/
def rolesLoop (env : SearchTask → List Lead) (N : Nat) (industry : String) :
    List String → CampaignState → CampaignState
  | [], st => st
  | role :: rest, st =>
    if st.all_leads.length ≥ N then st
    else rolesLoop env N industry rest
      (runSearchTask env st (SearchTask.industryRole industry role))

/-- Outer industry loop of `scrape_for_coaching_leads` (lines 1041-1063):
same break condition at the top of each iteration. -/
def industriesLoop (env : SearchTask → List Lead) (N : Nat) :
    List String → CampaignState → CampaignState
  | [], st => st
  | ind :: rest, st =>
    if st.all_leads.length ≥ N then st
    else industriesLoop env N rest (rolesLoop env N ind TARGET_ROLES st)

/-- Keyword loop of `scrape_for_coaching_leads` (lines 1066-1085): the
enclosing `if len(all_leads) < target_count` is subsumed by the identical
break at the top of the first iteration. -/
def keywordsLoop (env : SearchTask → List Lead) (N : Nat) :
    List String → CampaignState → CampaignState
  | [], st => st
  | kw :: rest, st =>
    if st.all_leads.length ≥ N then st
    else keywordsLoop env N rest (runSearchTask env st (SearchTask.keyword kw))

/-- Empty campaign state. -/
def initCampaignState : CampaignState := { trace := [], all_leads := [], seen_urls := [] }

/-- State after the industry×role phase of `linkedin_scraper.py`
`scrape_for_coaching_leads`. -/
def scrape_for_coaching_leads_phase1 (env : SearchTask → List Lead) (N : Nat) :
    CampaignState :=
  industriesLoop env N TARGET_INDUSTRIES initCampaignState

/-- Full campaign state of `linkedin_scraper.py` `scrape_for_coaching_leads`
(lines 1037-1085): industry×role phase then keyword phase. -/
def scrape_for_coaching_leads (env : SearchTask → List Lead) (N : Nat) :
    CampaignState :=
  keywordsLoop env N TARGET_KEYWORDS (scrape_for_coaching_leads_phase1 env N)

/-- The collection the monolithic campaign persists (lines 1087-1091): the
accumulated unique leads sorted descending by fit score, then written to
`data/life_coaching_leads.csv`. -/
def mono_persisted (env : SearchTask → List Lead) (N : Nat) : List Lead :=
  sortByFitDesc (scrape_for_coaching_leads env N).all_leads

/-- Exception-aware issue of one SearchTask in the monolithic campaign:
`scrape_for_coaching_leads` in `linkedin_scraper.py` calls
`scrape_by_industry_and_role` / `scrape_profiles` with no surrounding
`try`, so an exception in the per-task scrape propagates out of the
campaign. The environment returns either the task's leads or the raised
exception. -/
def runSearchTaskE (envE : SearchTask → Except String (List Lead))
    (st : CampaignState) (t : SearchTask) : Except String CampaignState :=
  match envE t with
  | Except.error e => Except.error e
  | Except.ok rs =>
    let st1 := addUniqueResults st rs
    Except.ok { st1 with trace := st.trace ++ [(t, st.all_leads.length)] }

/-- Role loop of the monolithic campaign under the exception-aware
environment: an error aborts the whole loop. -/
def rolesLoopE (envE : SearchTask → Except String (List Lead)) (N : Nat)
    (industry : String) : List String → CampaignState → Except String CampaignState
  | [], st => Except.ok st
  | role :: rest, st =>
    if st.all_leads.length ≥ N then Except.ok st
    else
      match runSearchTaskE envE st (SearchTask.industryRole industry role) with
      | Except.error e => Except.error e
      | Except.ok st1 => rolesLoopE envE N industry rest st1

/-- Industry loop of the monolithic campaign under the exception-aware
environment. -/
def industriesLoopE (envE : SearchTask → Except String (List Lead)) (N : Nat) :
    List String → CampaignState → Except String CampaignState
  | [], st => Except.ok st
  | ind :: rest, st =>
    if st.all_leads.length ≥ N then Except.ok st
    else
      match rolesLoopE envE N ind TARGET_ROLES st with
      | Except.error e => Except.error e
      | Except.ok st1 => industriesLoopE envE N rest st1

/-- Keyword loop of the monolithic campaign under the exception-aware
environment. -/
def keywordsLoopE (envE : SearchTask → Except String (List Lead)) (N : Nat) :
    List String → CampaignState → Except String CampaignState
  | [], st => Except.ok st
  | kw :: rest, st =>
    if st.all_leads.length ≥ N then Except.ok st
    else
      match runSearchTaskE envE st (SearchTask.keyword kw) with
      | Except.error e => Except.error e
      | Except.ok st1 => keywordsLoopE envE N rest st1

/-- `linkedin_scraper.py` `scrape_for_coaching_leads` with per-task failures
made explicit: with no `try/except` around the per-task scrape calls, the
first failing SearchTask aborts the whole campaign. -/
def scrape_for_coaching_leadsE (envE : SearchTask → Except String (List Lead))
    (N : Nat) : Except String CampaignState :=
  match industriesLoopE envE N TARGET_INDUSTRIES initCampaignState with
  | Except.error e => Except.error e
  | Except.ok st1 => keywordsLoopE envE N TARGET_KEYWORDS st1

/-- State of the package campaign `linkedin/scraper.py`
`scrape_for_coaching_leads`: leads are extended without dedup (dedup runs
once at the end), and the trace records each attempted SearchTask together
with whether its scrape succeeded (`false` = the per-task `except` branch
ran and the loop continued). -/
structure PkgState where
  trace : List (SearchTask × Bool)
  all_leads : List Lead
deriving DecidableEq

/-- One attempted SearchTask of the package campaign: on success the leads
are extended (`all_leads.extend(leads)`), on exception the error is logged
and the state is otherwise unchanged (`except ...: continue`). -/
def pkgRunTask (envE : SearchTask → Except String (List Lead))
    (st : PkgState) (t : SearchTask) : PkgState :=
  match envE t with
  | Except.ok rs =>
    { trace := st.trace ++ [(t, true)], all_leads := st.all_leads ++ rs }
  | Except.error _ =>
    { trace := st.trace ++ [(t, false)], all_leads := st.all_leads }

/-- Inner role loop of the package campaign (`linkedin/scraper.py` lines
375-392): break at the top when the target is reached; on success there is
a second break right after extending; on exception the loop continues with
the next role. -/
def pkgRolesLoop (envE : SearchTask → Except String (List Lead)) (N : Nat)
    (industry : String) : List String → PkgState → PkgState
  | [], st => st
  | role :: rest, st =>
    if st.all_leads.length ≥ N then st
    else
      let st1 := pkgRunTask envE st (SearchTask.industryRole industry role)
      match envE (SearchTask.industryRole industry role) with
      | Except.ok _ =>
        if st1.all_leads.length ≥ N then st1
        else pkgRolesLoop envE N industry rest st1
      | Except.error _ => pkgRolesLoop envE N industry rest st1

/-- Outer industry loop of the package campaign (line 374): bounded to the
first 3 industries, with no break condition of its own. -/
def pkgIndustriesLoop (envE : SearchTask → Except String (List Lead)) (N : Nat) :
    List String → PkgState → PkgState
  | [], st => st
  | ind :: rest, st =>
    pkgIndustriesLoop envE N rest
      (pkgRolesLoop envE N ind (TARGET_ROLES.take 3) st)

/-- Keyword loop of the package campaign (lines 395-413): bounded to the
first 5 keywords; break at the top when the target is reached; per-task
exceptions are caught and the loop continues. The enclosing
`if len(all_leads) < target_count` is subsumed by the first break. -/
def pkgKeywordsLoop (envE : SearchTask → Except String (List Lead)) (N : Nat) :
    List String → PkgState → PkgState
  | [], st => st
  | kw :: rest, st =>
    if st.all_leads.length ≥ N then st
    else pkgKeywordsLoop envE N rest (pkgRunTask envE st (SearchTask.keyword kw))

/-- State after the industry×role phase of the package campaign. -/
def pkg_phase1 (envE : SearchTask → Except String (List Lead)) (N : Nat) : PkgState :=
  pkgIndustriesLoop envE N (TARGET_INDUSTRIES.take 3) { trace := [], all_leads := [] }

/-- Full package campaign `linkedin/scraper.py` `scrape_for_coaching_leads`
(lines 360-413): industry×role phase then keyword phase. -/
def pkg_scrape_for_coaching_leads (envE : SearchTask → Except String (List Lead))
    (N : Nat) : PkgState :=
  pkgKeywordsLoop envE N (TARGET_KEYWORDS.take 5) (pkg_phase1 envE N)

/-- Final dedup of the package campaign (lines 416-423):
`url = lead.get('profile_url', ''); if url and url not in seen_urls: ...` —
leads with an empty URL are dropped, otherwise first-seen wins. -/
def pkgDedupAux : List Lead → List String → List Lead
  | [], _ => []
  | l :: rest, seen =>
    if l.profile_url == "" then pkgDedupAux rest seen
    else if l.profile_url ∈ seen then pkgDedupAux rest seen
    else l :: pkgDedupAux rest (l.profile_url :: seen)

/-- The collection the package campaign persists (lines 415-431): the
accumulated leads deduplicated first-seen — written to
`data/life_coaching_leads.csv` with no sorting step. -/
def pkg_persisted (envE : SearchTask → Except String (List Lead)) (N : Nat) :
    List Lead :=
  pkgDedupAux (pkg_scrape_for_coaching_leads envE N).all_leads []

/-- Pointwise update of a campaign environment at one task. -/
def updateEnv (envE : SearchTask → Except String (List Lead)) (t : SearchTask)
    (v : Except String (List Lead)) : SearchTask → Except String (List Lead) :=
  fun u => if u = t then v else envE u

/-- Results page with zero matching containers and a single profile anchor
whose visible text has one character. -/
def pageOneCharAnchor : Page :=
  { resultContainers := [], emberItems := [],
    anchors := [{ href := "https://www.linkedin.com/in/x", innerText := "X" }] }

/-- Results page with zero matching containers and two profile anchors with
multi-character visible text. -/
def pageTwoAnchors : Page :=
  { resultContainers := [], emberItems := [],
    anchors := [{ href := "https://www.linkedin.com/in/jan", innerText := "Jan Smit" },
                { href := "https://www.linkedin.com/in/ann", innerText := "Ann Roy" }] }

/-- Lead scored 50 (no keyword or location match), used in concrete
campaign runs. -/
def lowLead : Lead :=
  toLead { url := "https://www.linkedin.com/in/low", name := "Lo Per",
           headline := "Engineer", location := "Paris" }

/-- Lead scored 95 (ceo + leader + leadership + development + london), used
in concrete campaign runs. -/
def highLead : Lead :=
  toLead { url := "https://www.linkedin.com/in/high", name := "Hi Per",
           headline := "CEO focused on leadership development",
           location := "London, UK" }

/-- Campaign environment whose first industry×role search returns a
low-scored lead followed by a high-scored one and whose other searches
return nothing. -/
def envUnsorted : SearchTask → Except String (List Lead) :=
  fun t =>
    if t = SearchTask.industryRole "Technology" "CEO"
    then Except.ok [lowLead, highLead] else Except.ok []

/-- Campaign environment where every search returns no leads. -/
def envEmpty : SearchTask → List Lead := fun _ => []

/-- Campaign environment where every per-task scrape raises. -/
def envAllFail : SearchTask → Except String (List Lead) :=
  fun _ => Except.error "navigation error"

/-- Campaign environment where exactly the first industry×role scrape
raises and every other search returns no leads. -/
def envOneFail : SearchTask → Except String (List Lead) :=
  fun t =>
    if t = SearchTask.industryRole "Technology" "CEO"
    then Except.error "navigation error" else Except.ok []

/-- Extracted record whose URL carries a `miniProfile` query string. -/
def rawA : RawProfile :=
  { url := "https://www.linkedin.com/in/jan?miniProfile=abc",
    name := "Jan Smit", headline := "Engineer", location := "Paris" }

/-- Extracted record for the same profile whose URL carries a different
query string. -/
def rawB : RawProfile :=
  { url := "https://www.linkedin.com/in/jan?page=2",
    name := "Jan Smit", headline := "Engineer", location := "Paris" }

/-- Helper: a fold that conditionally adds values that are nonnegative on
the traversed list never decreases its accumulator. -/
theorem foldl_if_add_ge {α : Type} (f : α → Bool) (g : α → Int) :
    ∀ l : List α, (∀ a ∈ l, 0 ≤ g a) → ∀ s : Int,
      s ≤ l.foldl (fun acc a => if f a then acc + g a else acc) s := by
  intro l
  induction l with
  | nil => intro _ s; exact le_refl s
  | cons a l ih =>
    intro h s
    have h0 : 0 ≤ g a := h a (List.mem_cons_self a l)
    have hrec := ih (fun b hb => h b (List.mem_cons_of_mem a hb))
      (if f a then s + g a else s)
    refine le_trans ?_ (by simpa using hrec)
    by_cases hfa : f a
    · simp [hfa]; linarith
    · simp [hfa]

/-- Helper: the enrichment score is at least the base score 50 on every
input (all keyword and location adjustments are additive and nonnegative,
and the cap 100 is above 50). -/
theorem coachingScore_ge_fifty (pd : ProfileData) : 50 ≤ coachingScore pd := by
  obtain ⟨nm, hh, ll, fs, cn⟩ := pd
  have hrole : ∀ kp ∈ ROLE_KEYWORD_SCORES, 0 ≤ kp.2 := by decide
  have h1 : ∀ h : String, (50 : Int) ≤
      ROLE_KEYWORD_SCORES.foldl
        (fun s kp => if containsSub kp.1 (lowerAscii h) then s + kp.2 else s)
        (COACHING_KEYWORDS.foldl
          (fun s kw => if containsSub kw (lowerAscii h) then s + 5 else s) 50) := by
    intro h
    have hc := foldl_if_add_ge (fun kw => containsSub kw (lowerAscii h))
      (fun _ => (5 : Int)) COACHING_KEYWORDS (by intro a _; norm_num) 50
    have hr := foldl_if_add_ge (fun kp => containsSub kp.1 (lowerAscii h))
      (fun kp => kp.2) ROLE_KEYWORD_SCORES hrole
      (COACHING_KEYWORDS.foldl
        (fun s kw => if containsSub kw (lowerAscii h) then s + 5 else s) 50)
    exact le_trans hc hr
  cases hh with
  | none =>
    cases ll with
    | none => simp [coachingScore]
    | some loc =>
      by_cases hany : TARGET_LOCATIONS.any (fun t => containsSub t (lowerAscii loc)) <;>
        simp [coachingScore, hany]
  | some h =>
    cases ll with
    | none =>
      simp only [coachingScore]
      exact le_min (h1 h) (by norm_num)
    | some loc =>
      by_cases hany : TARGET_LOCATIONS.any (fun t => containsSub t (lowerAscii loc)) <;>
        simp only [coachingScore, hany, if_true, if_false, Bool.false_eq_true] <;>
        exact le_min (by linarith [h1 h]) (by norm_num)

/-- Helper: the enrichment score never exceeds the cap 100 applied by
`min(score, 100)`. -/
theorem coachingScore_le_hundred (pd : ProfileData) : coachingScore pd ≤ 100 := by
  obtain ⟨nm, hh, ll, fs, cn⟩ := pd
  cases hh <;> cases ll <;> simp only [coachingScore] <;> exact min_le_right _ _

/-- C1: the package profile-extraction entry point
`extractors.py` `extract_profiles` returns Python `None` on every loaded
page — including the zero-results page — because its final statement is a
bare `return` (line 149) that discards the computed list; this contradicts
its own docstring and the contract that it returns a (possibly empty)
list. -/
theorem extract_profiles_pkg_returns_none (p : Page) :
    Pkg.extract_profiles p = none := rfl

/-- C2 counterexample: on the record with headline "CEO focused on
leadership development" and location "London, UK" the enrichment scoring
returns fit score 95, not the claimed 90: the substring scan also awards
+5 for the role keyword "leader" contained in "leadership". -/
theorem scoring_scenario_score_is_not_ninety :
    (extract_additional_info
      { name := some "Test User",
        headline := some "CEO focused on leadership development",
        location := some "London, UK",
        coaching_fit_score := none, coaching_notes := none }).coaching_fit_score
        = some 95 ∧
    (extract_additional_info
      { name := some "Test User",
        headline := some "CEO focused on leadership development",
        location := some "London, UK",
        coaching_fit_score := none, coaching_notes := none }).coaching_fit_score
        ≠ some 90 := by
  constructor
  · decide
  · decide

/-- C2 amended: on the record with headline "CEO focused on leadership
development" and location "London, UK" the enrichment scoring returns fit
score exactly 95 (base 50 + 20 ceo + 5 leader-substring + 5 leadership
keyword + 5 development keyword + 10 london), and the generated notes
include the "HIGH POTENTIAL" label (score ≥ 80). -/
theorem scoring_scenario_score_and_label :
    (extract_additional_info
      { name := some "Test User",
        headline := some "CEO focused on leadership development",
        location := some "London, UK",
        coaching_fit_score := none, coaching_notes := none }).coaching_fit_score
        = some 95 ∧
    containsSub "HIGH POTENTIAL"
      ((extract_additional_info
        { name := some "Test User",
          headline := some "CEO focused on leadership development",
          location := some "London, UK",
          coaching_fit_score := none, coaching_notes := none }).coaching_notes.getD "")
        = true := by
  constructor
  · decide
  · decide

/-- C3: for every input record, whatever its headline and location content,
the fit score written by the enrichment step satisfies
`0 ≤ fit_score ≤ 100`. -/
theorem fit_score_in_range (pd : ProfileData) :
    (extract_additional_info pd).coaching_fit_score = some (coachingScore pd) ∧
    0 ≤ coachingScore pd ∧ coachingScore pd ≤ 100 := by
  refine ⟨rfl, ?_, coachingScore_le_hundred pd⟩
  have h := coachingScore_ge_fifty pd
  linarith

/-- C9 counterexample: `extract_additional_info` does not leave its input
record unmodified — the call writes `coaching_fit_score` and
`coaching_notes` into the caller's record (the Python function assigns
into `profile_data` and returns that same dict), so after the call the
argument differs from its pre-call value. -/
theorem enrichment_mutates_argument :
    (extract_additional_info_call
      { name := some "Sam Lee", headline := some "Engineer",
        location := some "Paris",
        coaching_fit_score := none, coaching_notes := none }).2
      ≠ { name := some "Sam Lee", headline := some "Engineer",
          location := some "Paris",
          coaching_fit_score := none, coaching_notes := none } := by
  decide

/-- C9 amended: the enrichment step performs no I/O and is deterministic (a
pure function of its input), but it is an in-place update rather than a
fresh value: the returned record and the final state of the argument are
the same updated record, which preserves the name, headline and location
fields and only adds the two scoring fields. -/
theorem enrichment_deterministic_in_place_update (pd : ProfileData) :
    (extract_additional_info_call pd).1 = (extract_additional_info_call pd).2 ∧
    (extract_additional_info_call pd).1 = extract_additional_info pd ∧
    (extract_additional_info pd).name = pd.name ∧
    (extract_additional_info pd).headline = pd.headline ∧
    (extract_additional_info pd).location = pd.location := by
  refine ⟨rfl, rfl, ?_, ?_, ?_⟩ <;> simp [extract_additional_info]

/-- C10: for every input record the fit score is at least the base score
50 — all adjustments are additive and nonnegative and clamping applies
only at the upper bound, so the effective range is [50, 100]. -/
theorem fit_score_ge_base (pd : ProfileData) :
    (extract_additional_info pd).coaching_fit_score = some (coachingScore pd) ∧
    50 ≤ coachingScore pd :=
  ⟨rfl, coachingScore_ge_fifty pd⟩

/-- Helper: on anchors that all match the profile-URL pattern and whose
trimmed text has at least two characters, the tier-3 link scan keeps every
anchor, using the trimmed link text as the name and the sentinel values for
headline and location. -/
theorem fallbackLinkScan_eq_map (l : List Elem)
    (hin : ∀ a ∈ l, containsSub "/in/" a.href = true)
    (hlen : ∀ a ∈ l, 2 ≤ (trimStr a.innerText).length) :
    Mono.fallbackLinkScan l =
      l.map (fun a => { url := a.href, name := trimStr a.innerText,
                        headline := "Not available",
                        location := "Not available" : RawProfile }) := by
  induction l with
  | nil => rfl
  | cons a rest ih =>
    have ha := hin a (List.mem_cons_self a rest)
    have hlena := hlen a (List.mem_cons_self a rest)
    have hne : ((trimStr a.innerText) == "") = false := by
      cases h : (trimStr a.innerText == "") with
      | false => rfl
      | true =>
        exfalso
        rw [eq_of_beq h] at hlena
        exact absurd hlena (by decide)
    have hgt : (trimStr a.innerText).length > 1 := by omega
    simp only [Mono.fallbackLinkScan, ha, hne, if_true, Bool.false_eq_true,
      if_false, hgt, List.map_cons]
    exact congrArg _ (ih (fun b hb => hin b (List.mem_cons_of_mem a hb))
      (fun b hb => hlen b (List.mem_cons_of_mem a hb)))

/-- C4 counterexample: a page where the primary container selector matches
zero elements and one anchor matches the profile-URL pattern with nonempty
(one-character) link text, yet extraction returns no records: the tier-3
link scan keeps an anchor only when its name has more than one character. -/
theorem tier3_drops_single_char_link_text :
    pageOneCharAnchor.resultContainers = [] ∧
    profileAnchors pageOneCharAnchor =
      [{ href := "https://www.linkedin.com/in/x", innerText := "X" }] ∧
    ("X" : String) ≠ "" ∧
    Mono.extract_profiles_js pageOneCharAnchor = [] := by
  refine ⟨rfl, by decide, by decide, by decide⟩

/-- C4 amended: on every page where the container selectors (both the
primary one and the `li.ember-view` tier) match zero elements and every
anchor matching the profile-URL pattern has link text of trimmed length at
least 2, the tier-3 link-scan fallback engages and extraction returns
exactly one record per such anchor, with name equal to the trimmed link
text and headline/location set to the sentinel "Not available" — in
particular at least one record when such an anchor exists, and exactly two
records in the two-anchor case. -/
theorem tier3_link_scan_fallback (p : Page)
    (h1 : p.resultContainers = []) (h2 : p.emberItems = [])
    (hlen : ∀ a ∈ profileAnchors p, 2 ≤ (trimStr a.innerText).length) :
    Mono.extract_profiles_js p =
      (profileAnchors p).map
        (fun a => { url := a.href, name := trimStr a.innerText,
                    headline := "Not available",
                    location := "Not available" : RawProfile }) := by
  have hin : ∀ a ∈ profileAnchors p, containsSub "/in/" a.href = true := by
    intro a ha
    exact (List.mem_filter.mp ha).2
  unfold Mono.extract_profiles_js
  rw [h1, h2]
  simpa using fallbackLinkScan_eq_map (profileAnchors p) hin hlen

/-- C4 witness: on the concrete two-anchor page the fallback produces
exactly the two expected records. -/
theorem tier3_link_scan_fallback_witness :
    Mono.extract_profiles_js pageTwoAnchors =
      [{ url := "https://www.linkedin.com/in/jan", name := "Jan Smit",
         headline := "Not available", location := "Not available" },
       { url := "https://www.linkedin.com/in/ann", name := "Ann Roy",
         headline := "Not available", location := "Not available" }] := by
  have h := tier3_link_scan_fallback pageTwoAnchors rfl rfl (by decide)
  rw [h]
  decide

/-- Helper: once a canonical URL is in the seen set, the dedup loop keeps
no lead with that URL. -/
theorem dedupProfilesAux_filter_seen (u : String) (ls : List Lead) :
    ∀ seen : List String, u ∈ seen →
      (dedupProfilesAux ls seen).filter (fun q => q.profile_url == u) = [] := by
  induction ls with
  | nil => intro seen _; rfl
  | cons p rest ih =>
    intro seen hu
    by_cases hp : p.profile_url ∈ seen
    · simp only [dedupProfilesAux, if_pos hp]
      exact ih seen hu
    · have hpu : (p.profile_url == u) = false := by
        cases h : (p.profile_url == u) with
        | false => rfl
        | true => exact absurd (eq_of_beq h ▸ hu) hp
      simp only [dedupProfilesAux, if_neg hp, List.filter_cons, hpu,
        Bool.false_eq_true, if_false]
      exact ih (p.profile_url :: seen) (List.mem_cons_of_mem _ hu)

/-- Helper: for a canonical URL not yet seen, the dedup loop keeps exactly
the first lead with that URL that the scan encounters. -/
theorem dedupProfilesAux_filter_not_seen (u : String) (ls : List Lead) :
    ∀ seen : List String, u ∉ seen →
      (dedupProfilesAux ls seen).filter (fun q => q.profile_url == u) =
        (ls.find? (fun q => q.profile_url == u)).toList := by
  induction ls with
  | nil => intro seen _; rfl
  | cons p rest ih =>
    intro seen hu
    by_cases hp : p.profile_url ∈ seen
    · have hpu : (p.profile_url == u) = false := by
        cases h : (p.profile_url == u) with
        | false => rfl
        | true => exact absurd (eq_of_beq h ▸ hp) hu
      simp only [dedupProfilesAux, if_pos hp, List.find?_cons, hpu]
      exact ih seen hu
    · by_cases heq : (p.profile_url == u) = true
      · have hequ : p.profile_url = u := eq_of_beq heq
        simp only [dedupProfilesAux, if_neg hp, List.filter_cons, heq, if_true,
          List.find?_cons, Option.toList_some]
        rw [dedupProfilesAux_filter_seen u rest (p.profile_url :: seen)
          (hequ ▸ List.mem_cons_self _ _)]
      · have hpu : (p.profile_url == u) = false := by
          cases h : (p.profile_url == u) with
          | false => rfl
          | true => exact absurd h heq
        have hu2 : u ∉ p.profile_url :: seen := by
          intro hmem
          rcases List.mem_cons.mp hmem with h | h
          · exact heq (by rw [h.symm] at hpu ⊢; exact beq_self_eq_true _)
          · exact hu h
        simp only [dedupProfilesAux, if_neg hp, List.filter_cons, hpu,
          Bool.false_eq_true, if_false, List.find?_cons]
        exact ih (p.profile_url :: seen) hu2

/-- Helper: find? analogue — the first lead the dedup output holds for a
URL is the first lead of the input with that URL. -/
theorem dedupProfilesAux_find_not_seen (u : String) (ls : List Lead) :
    ∀ seen : List String, u ∉ seen →
      (dedupProfilesAux ls seen).find? (fun q => q.profile_url == u) =
        ls.find? (fun q => q.profile_url == u) := by
  induction ls with
  | nil => intro seen _; rfl
  | cons p rest ih =>
    intro seen hu
    by_cases hp : p.profile_url ∈ seen
    · have hpu : (p.profile_url == u) = false := by
        cases h : (p.profile_url == u) with
        | false => rfl
        | true => exact absurd (eq_of_beq h ▸ hp) hu
      simp only [dedupProfilesAux, if_pos hp, List.find?_cons, hpu]
      exact ih seen hu
    · by_cases heq : (p.profile_url == u) = true
      · simp only [dedupProfilesAux, if_neg hp, List.find?_cons, heq]
      · have hpu : (p.profile_url == u) = false := by
          cases h : (p.profile_url == u) with
          | false => rfl
          | true => exact absurd h heq
        have hu2 : u ∉ p.profile_url :: seen := by
          intro hmem
          rcases List.mem_cons.mp hmem with h | h
          · exact heq (by rw [h.symm] at hpu ⊢; exact beq_self_eq_true _)
          · exact hu h
        simp only [dedupProfilesAux, if_neg hp, List.find?_cons, hpu]
        exact ih (p.profile_url :: seen) hu2

/-- C5: two extracted records whose URLs differ only by query string are
canonicalised to the same profile URL, and the aggregation step retains
exactly one lead with that canonical URL — the first-seen one in
processing order. -/
theorem dedup_canonical_first_seen (rs : List RawProfile) (r1 r2 : RawProfile)
    (h1 : r1 ∈ rs) (h2 : r2 ∈ rs)
    (hq : stripQuery r1.url = stripQuery r2.url) :
    (toLead r2).profile_url = (toLead r1).profile_url ∧
    ((scrape_profiles_unique rs).filter
        (fun q => q.profile_url == stripQuery r1.url)).length = 1 ∧
    (scrape_profiles_unique rs).find?
        (fun q => q.profile_url == stripQuery r1.url) =
      (processProfiles rs).find?
        (fun q => q.profile_url == stripQuery r1.url) := by
  have hnot : stripQuery r1.url ∉ ([] : List String) := List.not_mem_nil _
  have hfilter := dedupProfilesAux_filter_not_seen (stripQuery r1.url)
    (processProfiles rs) [] hnot
  have hfind := dedupProfilesAux_find_not_seen (stripQuery r1.url)
    (processProfiles rs) [] hnot
  have hmem : toLead r1 ∈ processProfiles rs := List.mem_map_of_mem toLead h1
  have hsome : ((processProfiles rs).find?
      (fun q => q.profile_url == stripQuery r1.url)).isSome := by
    rw [List.find?_isSome]
    exact ⟨toLead r1, hmem, beq_self_eq_true _⟩
  refine ⟨?_, ?_, ?_⟩
  · show stripQuery r2.url = stripQuery r1.url
    exact hq.symm
  · rcases Option.isSome_iff_exists.mp hsome with ⟨y, hy⟩
    unfold scrape_profiles_unique dedupProfiles
    rw [hfilter, hy]
    rfl
  · unfold scrape_profiles_unique dedupProfiles
    exact hfind

/-- C5 witness: two records for the same profile differing only by query
string collapse to one retained lead, the first-seen. -/
theorem dedup_canonical_first_seen_witness :
    (toLead rawB).profile_url = (toLead rawA).profile_url ∧
    ((scrape_profiles_unique [rawA, rawB]).filter
        (fun q => q.profile_url == stripQuery rawA.url)).length = 1 ∧
    (scrape_profiles_unique [rawA, rawB]).find?
        (fun q => q.profile_url == stripQuery rawA.url) =
      (processProfiles [rawA, rawB]).find?
        (fun q => q.profile_url == stripQuery rawA.url) :=
  dedup_canonical_first_seen [rawA, rawB] rawA rawB (by decide) (by decide)
    (by decide)

/-- C6 counterexample: a completed package-scraper campaign
(`linkedin/scraper.py` `scrape_for_coaching_leads`) whose first search
returns a 50-scored lead before a 95-scored one persists them in that
order — the persisted collection is not non-increasing in fit score, since
the package campaign has no sorting step before persistence. -/
theorem pkg_persisted_not_sorted :
    (pkg_persisted envUnsorted 30).map (fun l => l.coaching_fit_score) = [50, 95] ∧
    ¬ List.Pairwise
        (fun a b : Lead => b.coaching_fit_score ≤ a.coaching_fit_score)
        (pkg_persisted envUnsorted 30) := by
  constructor
  · decide
  · decide

/-- C6 amended: the monolithic campaign (`linkedin_scraper.py`
`scrape_for_coaching_leads`) sorts the accumulated leads descending by fit
score before persisting them, so its persisted collection is non-increasing
in fit score from first row to last; the package campaign
(`linkedin/scraper.py`) persists leads in collection order without a sort. -/
theorem mono_persisted_sorted (env : SearchTask → List Lead) (N : Nat) :
    List.Pairwise
      (fun a b : Lead => b.coaching_fit_score ≤ a.coaching_fit_score)
      (mono_persisted env N) := by
  have h := @List.sorted_mergeSort Lead
    (fun a b : Lead => decide (b.coaching_fit_score ≤ a.coaching_fit_score))
    (by
      intro a b c h1 h2
      simp only [decide_eq_true_eq] at h1 h2 ⊢
      exact le_trans h2 h1)
    (by
      intro a b
      simp only [Bool.or_eq_true, decide_eq_true_eq]
      exact le_total _ _)
    (scrape_for_coaching_leads env N).all_leads
  unfold mono_persisted sortByFitDesc
  exact h.imp (fun hab => by simpa using hab)

/-- Helper: merging a task's results never touches the trace. -/
theorem addUniqueResults_trace (rs : List Lead) :
    ∀ st : CampaignState, (addUniqueResults st rs).trace = st.trace := by
  induction rs with
  | nil => intro st; rfl
  | cons r rest ih =>
    intro st
    have hstep : addUniqueResults st (r :: rest) =
        addUniqueResults
          (if r.profile_url ∈ st.seen_urls then st
           else { st with all_leads := st.all_leads ++ [r],
                          seen_urls := r.profile_url :: st.seen_urls }) rest := rfl
    rw [hstep, ih]
    by_cases h : r.profile_url ∈ st.seen_urls
    · rw [if_pos h]
    · rw [if_neg h]

/-- Helper: merging a task's results never decreases the unique-lead
count. -/
theorem addUniqueResults_len (rs : List Lead) :
    ∀ st : CampaignState,
      st.all_leads.length ≤ (addUniqueResults st rs).all_leads.length := by
  induction rs with
  | nil => intro st; exact le_refl _
  | cons r rest ih =>
    intro st
    have hstep : addUniqueResults st (r :: rest) =
        addUniqueResults
          (if r.profile_url ∈ st.seen_urls then st
           else { st with all_leads := st.all_leads ++ [r],
                          seen_urls := r.profile_url :: st.seen_urls }) rest := rfl
    rw [hstep]
    by_cases h : r.profile_url ∈ st.seen_urls
    · rw [if_pos h]; exact ih st
    · rw [if_neg h]
      refine le_trans ?_ (ih _)
      simp

/-- Helper: issuing a task appends exactly one trace entry, carrying the
unique-lead count at issuance. -/
theorem runSearchTask_trace (env : SearchTask → List Lead)
    (st : CampaignState) (t : SearchTask) :
    (runSearchTask env st t).trace = st.trace ++ [(t, st.all_leads.length)] := rfl

/-- Helper: issuing a task never decreases the unique-lead count. -/
theorem runSearchTask_len (env : SearchTask → List Lead)
    (st : CampaignState) (t : SearchTask) :
    st.all_leads.length ≤ (runSearchTask env st t).all_leads.length :=
  addUniqueResults_len (env t) st

/-- Helper: the role loop only issues tasks while the unique-lead count is
below the target. -/
theorem rolesLoop_entries_lt (env : SearchTask → List Lead) (N : Nat)
    (ind : String) (roles : List String) :
    ∀ st : CampaignState, (∀ e ∈ st.trace, e.2 < N) →
      ∀ e ∈ (rolesLoop env N ind roles st).trace, e.2 < N := by
  induction roles with
  | nil => intro st h; exact h
  | cons role rest ih =>
    intro st h
    by_cases hg : st.all_leads.length ≥ N
    · simp only [rolesLoop, if_pos hg]; exact h
    · simp only [rolesLoop, if_neg hg]
      apply ih
      intro e he
      rw [runSearchTask_trace] at he
      rcases List.mem_append.mp he with h1 | h1
      · exact h e h1
      · rw [List.mem_singleton.mp h1]
        omega

/-- Helper: the role loop never decreases the unique-lead count. -/
theorem rolesLoop_len (env : SearchTask → List Lead) (N : Nat)
    (ind : String) (roles : List String) :
    ∀ st : CampaignState,
      st.all_leads.length ≤ (rolesLoop env N ind roles st).all_leads.length := by
  induction roles with
  | nil => intro st; exact le_refl _
  | cons role rest ih =>
    intro st
    by_cases hg : st.all_leads.length ≥ N
    · simp only [rolesLoop, if_pos hg]; exact le_refl _
    · simp only [rolesLoop, if_neg hg]
      exact le_trans (runSearchTask_len env st _) (ih _)

/-- Helper: the role loop adds only industry×role trace entries. -/
theorem rolesLoop_entries_nokw (env : SearchTask → List Lead) (N : Nat)
    (ind : String) (roles : List String) :
    ∀ st : CampaignState, (∀ e ∈ st.trace, isKeywordTask e.1 = false) →
      ∀ e ∈ (rolesLoop env N ind roles st).trace, isKeywordTask e.1 = false := by
  induction roles with
  | nil => intro st h; exact h
  | cons role rest ih =>
    intro st h
    by_cases hg : st.all_leads.length ≥ N
    · simp only [rolesLoop, if_pos hg]; exact h
    · simp only [rolesLoop, if_neg hg]
      apply ih
      intro e he
      rw [runSearchTask_trace] at he
      rcases List.mem_append.mp he with h1 | h1
      · exact h e h1
      · rw [List.mem_singleton.mp h1]; rfl

/-- Helper: the industry loop only issues tasks while the unique-lead count
is below the target. -/
theorem industriesLoop_entries_lt (env : SearchTask → List Lead) (N : Nat)
    (inds : List String) :
    ∀ st : CampaignState, (∀ e ∈ st.trace, e.2 < N) →
      ∀ e ∈ (industriesLoop env N inds st).trace, e.2 < N := by
  induction inds with
  | nil => intro st h; exact h
  | cons ind rest ih =>
    intro st h
    by_cases hg : st.all_leads.length ≥ N
    · simp only [industriesLoop, if_pos hg]; exact h
    · simp only [industriesLoop, if_neg hg]
      exact ih _ (rolesLoop_entries_lt env N ind TARGET_ROLES st h)

/-- Helper: the industry loop adds only industry×role trace entries. -/
theorem industriesLoop_entries_nokw (env : SearchTask → List Lead) (N : Nat)
    (inds : List String) :
    ∀ st : CampaignState, (∀ e ∈ st.trace, isKeywordTask e.1 = false) →
      ∀ e ∈ (industriesLoop env N inds st).trace, isKeywordTask e.1 = false := by
  induction inds with
  | nil => intro st h; exact h
  | cons ind rest ih =>
    intro st h
    by_cases hg : st.all_leads.length ≥ N
    · simp only [industriesLoop, if_pos hg]; exact h
    · simp only [industriesLoop, if_neg hg]
      exact ih _ (rolesLoop_entries_nokw env N ind TARGET_ROLES st h)

/-- Helper: the keyword loop only issues tasks while the unique-lead count
is below the target. -/
theorem keywordsLoop_entries_lt (env : SearchTask → List Lead) (N : Nat)
    (kws : List String) :
    ∀ st : CampaignState, (∀ e ∈ st.trace, e.2 < N) →
      ∀ e ∈ (keywordsLoop env N kws st).trace, e.2 < N := by
  induction kws with
  | nil => intro st h; exact h
  | cons kw rest ih =>
    intro st h
    by_cases hg : st.all_leads.length ≥ N
    · simp only [keywordsLoop, if_pos hg]; exact h
    · simp only [keywordsLoop, if_neg hg]
      apply ih
      intro e he
      rw [runSearchTask_trace] at he
      rcases List.mem_append.mp he with h1 | h1
      · exact h e h1
      · rw [List.mem_singleton.mp h1]
        omega

/-- Helper: when the keyword loop has issued some keyword task, either a
keyword entry was already in the incoming trace or the incoming unique-lead
count was below the target. -/
theorem keywordsLoop_kw_implies (env : SearchTask → List Lead) (N : Nat)
    (kws : List String) :
    ∀ st : CampaignState,
      (∃ e ∈ (keywordsLoop env N kws st).trace, isKeywordTask e.1 = true) →
      (∃ e ∈ st.trace, isKeywordTask e.1 = true) ∨ st.all_leads.length < N := by
  induction kws with
  | nil => intro st h; exact Or.inl h
  | cons kw rest ih =>
    intro st h
    by_cases hg : st.all_leads.length ≥ N
    · simp only [keywordsLoop, if_pos hg] at h
      exact Or.inl h
    · right; omega

/-- C7: during a monolithic campaign run with target `N`, every SearchTask
is issued while strictly fewer than `N` unique leads are accumulated (once
`N` unique leads are reached, no further industry×role or keyword task is
issued), and any keyword task is issued only when the industry×role phase
ended with fewer than `N` unique leads. -/
theorem campaign_short_circuit (env : SearchTask → List Lead) (N : Nat)
    (e : SearchTask × Nat)
    (he : e ∈ (scrape_for_coaching_leads env N).trace) :
    e.2 < N ∧
    (isKeywordTask e.1 = true →
      (scrape_for_coaching_leads_phase1 env N).all_leads.length < N) := by
  have hinit : ∀ x ∈ initCampaignState.trace, x.2 < N := by
    intro x hx
    exact absurd hx (List.not_mem_nil x)
  have hinitkw : ∀ x ∈ initCampaignState.trace, isKeywordTask x.1 = false := by
    intro x hx
    exact absurd hx (List.not_mem_nil x)
  have hphase1 := industriesLoop_entries_lt env N TARGET_INDUSTRIES
    initCampaignState hinit
  have hphase1kw := industriesLoop_entries_nokw env N TARGET_INDUSTRIES
    initCampaignState hinitkw
  constructor
  · exact keywordsLoop_entries_lt env N TARGET_KEYWORDS
      (scrape_for_coaching_leads_phase1 env N) hphase1 e he
  · intro hkw
    have hex := keywordsLoop_kw_implies env N TARGET_KEYWORDS
      (scrape_for_coaching_leads_phase1 env N) ⟨e, he, hkw⟩
    rcases hex with ⟨x, hx, hxkw⟩ | hlt
    · exact absurd hxkw (by simp [hphase1kw x hx])
    · exact hlt

set_option maxRecDepth 4000 in
/-- C7 witness: in the campaign where every search returns nothing and the
target is 1, the first keyword task is issued with 0 accumulated leads, and
the theorem yields both the below-target bound and the keyword-phase
condition for it. -/
theorem campaign_short_circuit_witness :
    (SearchTask.keyword "career transition", (0 : Nat)) ∈
      (scrape_for_coaching_leads envEmpty 1).trace ∧
    ((0 : Nat) < 1 ∧
      (isKeywordTask (SearchTask.keyword "career transition") = true →
        (scrape_for_coaching_leads_phase1 envEmpty 1).all_leads.length < 1)) := by
  have hmem : (SearchTask.keyword "career transition", (0 : Nat)) ∈
      (scrape_for_coaching_leads envEmpty 1).trace := by decide
  exact ⟨hmem, campaign_short_circuit envEmpty 1 _ hmem⟩

/-- C8 counterexample: in the monolithic campaign an exception raised while
scraping the very first SearchTask is not caught — the whole campaign
aborts with that error instead of proceeding to the remaining planned
searches. -/
theorem mono_campaign_aborts_on_task_failure :
    scrape_for_coaching_leadsE envAllFail 50 =
      Except.error "navigation error" := rfl

/-- Helper: attempting one task under the environment where the failing
task is replaced by an empty success preserves the accumulated leads and
the attempted-task sequence (only the success flag of the failing task
differs). -/
theorem pkgRunTask_isolated (envE : SearchTask → Except String (List Lead))
    (t : SearchTask) (e : String) (hf : envE t = Except.error e)
    (u : SearchTask) (stA stB : PkgState)
    (hl : stA.all_leads = stB.all_leads)
    (ht : stA.trace.map Prod.fst = stB.trace.map Prod.fst) :
    (pkgRunTask (updateEnv envE t (Except.ok [])) stA u).all_leads =
      (pkgRunTask envE stB u).all_leads ∧
    (pkgRunTask (updateEnv envE t (Except.ok [])) stA u).trace.map Prod.fst =
      (pkgRunTask envE stB u).trace.map Prod.fst := by
  by_cases hu : u = t
  · have hA : updateEnv envE t (Except.ok []) u = Except.ok [] := by
      unfold updateEnv; rw [if_pos hu]
    have hB : envE u = Except.error e := by rw [hu, hf]
    unfold pkgRunTask
    rw [hA, hB]
    exact ⟨by simpa using hl, by simp [ht]⟩
  · have hA : updateEnv envE t (Except.ok []) u = envE u := by
      unfold updateEnv; rw [if_neg hu]
    unfold pkgRunTask
    rw [hA]
    cases henv : envE u with
    | ok rs => exact ⟨by simp [hl], by simp [ht]⟩
    | error er => exact ⟨by simpa using hl, by simp [ht]⟩

/-- Helper: the package role loop behaves identically (same leads, same
attempted-task sequence) whether the failing task raises or returns no
results. -/
theorem pkgRolesLoop_isolated (envE : SearchTask → Except String (List Lead))
    (N : Nat) (t : SearchTask) (e : String) (hf : envE t = Except.error e)
    (ind : String) (roles : List String) :
    ∀ stA stB : PkgState,
      stA.all_leads = stB.all_leads →
      stA.trace.map Prod.fst = stB.trace.map Prod.fst →
      (pkgRolesLoop (updateEnv envE t (Except.ok [])) N ind roles stA).all_leads =
        (pkgRolesLoop envE N ind roles stB).all_leads ∧
      (pkgRolesLoop (updateEnv envE t (Except.ok [])) N ind roles stA).trace.map
          Prod.fst =
        (pkgRolesLoop envE N ind roles stB).trace.map Prod.fst := by
  induction roles with
  | nil => exact fun _ _ hl ht => ⟨hl, ht⟩
  | cons role rest ih =>
    intro stA stB hl ht
    by_cases hg : stB.all_leads.length ≥ N
    · have hgA : stA.all_leads.length ≥ N := hl ▸ hg
      simp only [pkgRolesLoop, if_pos hg, if_pos hgA]
      exact ⟨hl, ht⟩
    · have hgA : ¬ stA.all_leads.length ≥ N := hl ▸ hg
      simp only [pkgRolesLoop, if_neg hg, if_neg hgA]
      by_cases hu : SearchTask.industryRole ind role = t
      · have hA : updateEnv envE t (Except.ok [])
            (SearchTask.industryRole ind role) = Except.ok [] := by
          unfold updateEnv; rw [if_pos hu]
        have hB : envE (SearchTask.industryRole ind role) = Except.error e := by
          rw [hu, hf]
        have hA1 : pkgRunTask (updateEnv envE t (Except.ok [])) stA
            (SearchTask.industryRole ind role) =
            { trace := stA.trace ++ [(SearchTask.industryRole ind role, true)],
              all_leads := stA.all_leads ++ [] } := by
          unfold pkgRunTask; rw [hA]
        have hB1 : pkgRunTask envE stB (SearchTask.industryRole ind role) =
            { trace := stB.trace ++ [(SearchTask.industryRole ind role, false)],
              all_leads := stB.all_leads } := by
          unfold pkgRunTask; rw [hB]
        rw [hA, hB, hA1, hB1]
        dsimp only
        have hmid : ¬ (stA.all_leads ++ []).length ≥ N := by simpa using hgA
        rw [if_neg hmid]
        exact ih _ _ (by simpa using hl) (by simp [ht])
      · have hA : updateEnv envE t (Except.ok [])
            (SearchTask.industryRole ind role) =
            envE (SearchTask.industryRole ind role) := by
          unfold updateEnv; rw [if_neg hu]
        cases henv : envE (SearchTask.industryRole ind role) with
        | ok rs =>
          have hA1 : pkgRunTask (updateEnv envE t (Except.ok [])) stA
              (SearchTask.industryRole ind role) =
              { trace := stA.trace ++ [(SearchTask.industryRole ind role, true)],
                all_leads := stA.all_leads ++ rs } := by
            unfold pkgRunTask; rw [hA, henv]
          have hB1 : pkgRunTask envE stB (SearchTask.industryRole ind role) =
              { trace := stB.trace ++ [(SearchTask.industryRole ind role, true)],
                all_leads := stB.all_leads ++ rs } := by
            unfold pkgRunTask; rw [henv]
          rw [hA, henv, hA1, hB1]
          dsimp only
          by_cases hmidB : (stB.all_leads ++ rs).length ≥ N
          · have hmidA : (stA.all_leads ++ rs).length ≥ N := by rw [hl]; exact hmidB
            rw [if_pos hmidB, if_pos hmidA]
            exact ⟨by simp [hl], by simp [ht]⟩
          · have hmidA : ¬ (stA.all_leads ++ rs).length ≥ N := by rw [hl]; exact hmidB
            rw [if_neg hmidB, if_neg hmidA]
            exact ih _ _ (by simp [hl]) (by simp [ht])
        | error er =>
          have hA1 : pkgRunTask (updateEnv envE t (Except.ok [])) stA
              (SearchTask.industryRole ind role) =
              { trace := stA.trace ++ [(SearchTask.industryRole ind role, false)],
                all_leads := stA.all_leads } := by
            unfold pkgRunTask; rw [hA, henv]
          have hB1 : pkgRunTask envE stB (SearchTask.industryRole ind role) =
              { trace := stB.trace ++ [(SearchTask.industryRole ind role, false)],
                all_leads := stB.all_leads } := by
            unfold pkgRunTask; rw [henv]
          rw [hA, henv, hA1, hB1]
          dsimp only
          exact ih _ _ (by simpa using hl) (by simp [ht])

/-- Helper: the package industry loop behaves identically whether the
failing task raises or returns no results. -/
theorem pkgIndustriesLoop_isolated (envE : SearchTask → Except String (List Lead))
    (N : Nat) (t : SearchTask) (e : String) (hf : envE t = Except.error e)
    (inds : List String) :
    ∀ stA stB : PkgState,
      stA.all_leads = stB.all_leads →
      stA.trace.map Prod.fst = stB.trace.map Prod.fst →
      (pkgIndustriesLoop (updateEnv envE t (Except.ok [])) N inds stA).all_leads =
        (pkgIndustriesLoop envE N inds stB).all_leads ∧
      (pkgIndustriesLoop (updateEnv envE t (Except.ok [])) N inds stA).trace.map
          Prod.fst =
        (pkgIndustriesLoop envE N inds stB).trace.map Prod.fst := by
  induction inds with
  | nil => exact fun _ _ hl ht => ⟨hl, ht⟩
  | cons ind rest ih =>
    intro stA stB hl ht
    simp only [pkgIndustriesLoop]
    have h := pkgRolesLoop_isolated envE N t e hf ind (TARGET_ROLES.take 3)
      stA stB hl ht
    exact ih _ _ h.1 h.2

/-- Helper: the package keyword loop behaves identically whether the
failing task raises or returns no results. -/
theorem pkgKeywordsLoop_isolated (envE : SearchTask → Except String (List Lead))
    (N : Nat) (t : SearchTask) (e : String) (hf : envE t = Except.error e)
    (kws : List String) :
    ∀ stA stB : PkgState,
      stA.all_leads = stB.all_leads →
      stA.trace.map Prod.fst = stB.trace.map Prod.fst →
      (pkgKeywordsLoop (updateEnv envE t (Except.ok [])) N kws stA).all_leads =
        (pkgKeywordsLoop envE N kws stB).all_leads ∧
      (pkgKeywordsLoop (updateEnv envE t (Except.ok [])) N kws stA).trace.map
          Prod.fst =
        (pkgKeywordsLoop envE N kws stB).trace.map Prod.fst := by
  induction kws with
  | nil => exact fun _ _ hl ht => ⟨hl, ht⟩
  | cons kw rest ih =>
    intro stA stB hl ht
    by_cases hg : stB.all_leads.length ≥ N
    · have hgA : stA.all_leads.length ≥ N := hl ▸ hg
      simp only [pkgKeywordsLoop, if_pos hg, if_pos hgA]
      exact ⟨hl, ht⟩
    · have hgA : ¬ stA.all_leads.length ≥ N := hl ▸ hg
      simp only [pkgKeywordsLoop, if_neg hg, if_neg hgA]
      have h := pkgRunTask_isolated envE t e hf (SearchTask.keyword kw)
        stA stB hl ht
      exact ih _ _ h.1 h.2

/-- C8 amended: in the package campaign (`linkedin/scraper.py`
`scrape_for_coaching_leads`) an exception raised while scraping one
SearchTask is caught and logged at the campaign level and the remaining
planned SearchTasks still execute: the campaign attempts exactly the same
task sequence, accumulates exactly the same leads, and persists exactly the
same collection as it would had the failing task returned no results. In
the monolithic `linkedin_scraper.py` campaign the exception instead
propagates and aborts the run. -/
theorem pkg_campaign_failure_isolated (envE : SearchTask → Except String (List Lead))
    (N : Nat) (t : SearchTask) (e : String) (hf : envE t = Except.error e) :
    (pkg_scrape_for_coaching_leads (updateEnv envE t (Except.ok [])) N).all_leads =
      (pkg_scrape_for_coaching_leads envE N).all_leads ∧
    (pkg_scrape_for_coaching_leads (updateEnv envE t (Except.ok [])) N).trace.map
        Prod.fst =
      (pkg_scrape_for_coaching_leads envE N).trace.map Prod.fst ∧
    pkg_persisted (updateEnv envE t (Except.ok [])) N = pkg_persisted envE N := by
  have h0 := pkgIndustriesLoop_isolated envE N t e hf (TARGET_INDUSTRIES.take 3)
    { trace := [], all_leads := [] } { trace := [], all_leads := [] } rfl rfl
  have h1 := pkgKeywordsLoop_isolated envE N t e hf (TARGET_KEYWORDS.take 5)
    (pkg_phase1 (updateEnv envE t (Except.ok [])) N) (pkg_phase1 envE N) h0.1 h0.2
  refine ⟨h1.1, h1.2, ?_⟩
  unfold pkg_persisted pkg_scrape_for_coaching_leads
  rw [h1.1]

/-- C8 witness: with the concrete environment where exactly the first
industry×role scrape raises, the isolation theorem yields that the campaign
matches the run where that task returned nothing. -/
theorem pkg_campaign_failure_isolated_witness :
    (pkg_scrape_for_coaching_leads
        (updateEnv envOneFail (SearchTask.industryRole "Technology" "CEO")
          (Except.ok [])) 30).all_leads =
      (pkg_scrape_for_coaching_leads envOneFail 30).all_leads ∧
    (pkg_scrape_for_coaching_leads
        (updateEnv envOneFail (SearchTask.industryRole "Technology" "CEO")
          (Except.ok [])) 30).trace.map Prod.fst =
      (pkg_scrape_for_coaching_leads envOneFail 30).trace.map Prod.fst ∧
    pkg_persisted
        (updateEnv envOneFail (SearchTask.industryRole "Technology" "CEO")
          (Except.ok [])) 30 =
      pkg_persisted envOneFail 30 :=
  pkg_campaign_failure_isolated envOneFail 30
    (SearchTask.industryRole "Technology" "CEO") "navigation error" rfl
